import Mathlib

/-
Verification of the model-type dispatch and request/response normalization
layer of the plugin-gateway-ghost repository (a TypeScript plugin adapting a
host agent runtime to a multi-model HTTP gateway).

Each definition below is a shallow embedding of one source function; the
external collaborators (the Vercel AI SDK, js-tiktoken, the FAL client, zod's
URL validator) are modelled as explicit parameters or boundary structures,
exactly as the spec describes them at the boundary.
-/

namespace GatewayGhost

/- ===================================================================
   Error wrapping (src/unnamed/part_000, wrapHandlerError).
   An AIGatewayError carries (message, code, statusCode, cause).  Any thrown
   value is either an AIGatewayError, a plain Error (with a message), or a
   non-Error value (stringified by String(error)).
   =================================================================== -/

/-- A thrown JavaScript value as seen by wrapHandlerError: an
AIGatewayError (already kinded), a plain Error, or a non-Error value. -/
inductive ErrValue where
  | plainError (message : String)
  | gatewayError (message : String) (code : String) (statusCode : Option Nat)
      (cause : Option ErrValue)
  | nonError (stringRepr : String)

/-- Shallow embedding of wrapHandlerError (part_000 lines 23-32):
an AIGatewayError is rethrown unchanged; any other error is rethrown as an
AIGatewayError with code HANDLER_ERROR, a message prefixed by the model-type
label, and the original Error (if it was one) preserved as the cause. -/
def wrapHandlerError (modelType : String) (e : ErrValue) : ErrValue :=
  match e with
  | .gatewayError .. => e
  | .plainError m =>
      .gatewayError (modelType ++ " handler failed: " ++ m) "HANDLER_ERROR" none
        (some (.plainError m))
  | .nonError r =>
      .gatewayError (modelType ++ " handler failed: " ++ r) "HANDLER_ERROR" none none

/-- C8: a plain error passed through the handler-wrapping boundary is rethrown
as a HANDLER_ERROR-kind error whose message carries the capability label and
the original message and whose cause is the original error; an already-kinded
(AIGatewayError) error is rethrown unchanged with its original kind intact. -/
theorem wrapHandlerError_spec (modelType m code : String) (sc : Option Nat)
    (cz : Option ErrValue) :
    wrapHandlerError modelType (.plainError m) =
      .gatewayError (modelType ++ " handler failed: " ++ m) "HANDLER_ERROR" none
        (some (.plainError m)) ∧
    wrapHandlerError modelType (.gatewayError m code sc cz) =
      .gatewayError m code sc cz := by
  exact ⟨rfl, rfl⟩

/- ===================================================================
   Configuration resolver (src/src/gateway.ts, aiGatewayConfigSchema and
   parseConfig).  The zod schema requires a non-empty API key, applies fixed
   literal defaults to every other field, validates the base URL with zod's
   URL check (modelled as the boundary parameter isUrl), and constrains the
   TTS voice to a fixed six-value enumeration.
   =================================================================== -/

/-- The raw settings record passed to parseConfig: each of the ten schema
keys is either a string from the environment/plugin config or absent. -/
structure RawEnv where
  AI_GATEWAY_API_KEY : Option String
  AI_GATEWAY_BASE_URL : Option String
  AI_GATEWAY_TEXT_SMALL_MODEL : Option String
  AI_GATEWAY_TEXT_LARGE_MODEL : Option String
  AI_GATEWAY_EMBEDDING_MODEL : Option String
  AI_GATEWAY_IMAGE_MODEL : Option String
  AI_GATEWAY_VISION_MODEL : Option String
  AI_GATEWAY_TRANSCRIPTION_MODEL : Option String
  AI_GATEWAY_TTS_MODEL : Option String
  AI_GATEWAY_TTS_VOICE : Option String

/-- The validated configuration record (type AIGatewayConfig inferred from
aiGatewayConfigSchema): every field is a definite string after defaulting. -/
structure AIGatewayConfig where
  AI_GATEWAY_API_KEY : String
  AI_GATEWAY_BASE_URL : String
  AI_GATEWAY_TEXT_SMALL_MODEL : String
  AI_GATEWAY_TEXT_LARGE_MODEL : String
  AI_GATEWAY_EMBEDDING_MODEL : String
  AI_GATEWAY_IMAGE_MODEL : String
  AI_GATEWAY_VISION_MODEL : String
  AI_GATEWAY_TRANSCRIPTION_MODEL : String
  AI_GATEWAY_TTS_MODEL : String
  AI_GATEWAY_TTS_VOICE : String
deriving DecidableEq

/-- The closed set of allowed TTS voices in the schema enum. -/
def allowedTtsVoices : List String :=
  ["alloy", "echo", "fable", "onyx", "nova", "shimmer"]

/-- Field parser for AI_GATEWAY_API_KEY: z.string().min(1) fails when the key
is absent (undefined is not a string) or has length zero. -/
def parseApiKey : Option String → Except String String
  | none => .error "AI_GATEWAY_API_KEY is required"
  | some s => if s.length = 0 then .error "AI_GATEWAY_API_KEY is required" else .ok s

/-- Field parser for AI_GATEWAY_BASE_URL: z.string().url().default(...).
The URL well-formedness check is zod library code, modelled by the boundary
predicate isUrl; an absent value takes the documented default literal. -/
def parseBaseUrl (isUrl : String → Bool) : Option String → Except String String
  | none => .ok "https://ai-gateway.vercel.sh/v1"
  | some s => if isUrl s then .ok s else .error "Invalid url"

/-- Field parser for AI_GATEWAY_TTS_VOICE: a six-value z.enum with default
alloy; any value outside the closed set fails validation. -/
def parseTtsVoice : Option String → Except String String
  | none => .ok "alloy"
  | some v => if v ∈ allowedTtsVoices then .ok v else .error "Invalid enum value"

/-- Shallow embedding of parseConfig (gateway.ts concatenation lines 129-142
applying aiGatewayConfigSchema, lines 87-122): validation succeeds exactly
when every fallible field validates, and every absent defaulted field gets
its documented default literal. -/
def parseConfig (isUrl : String → Bool) (env : RawEnv) :
    Except String AIGatewayConfig := do
  let key ← parseApiKey env.AI_GATEWAY_API_KEY
  let baseUrl ← parseBaseUrl isUrl env.AI_GATEWAY_BASE_URL
  let voice ← parseTtsVoice env.AI_GATEWAY_TTS_VOICE
  .ok ⟨key, baseUrl,
    env.AI_GATEWAY_TEXT_SMALL_MODEL.getD "anthropic/claude-haiku-4.5",
    env.AI_GATEWAY_TEXT_LARGE_MODEL.getD "anthropic/claude-opus-4.5",
    env.AI_GATEWAY_EMBEDDING_MODEL.getD "openai/text-embedding-3-large",
    env.AI_GATEWAY_IMAGE_MODEL.getD "bfl/flux-2-pro",
    env.AI_GATEWAY_VISION_MODEL.getD "xai/grok-2-vision",
    env.AI_GATEWAY_TRANSCRIPTION_MODEL.getD "openai/whisper-1",
    env.AI_GATEWAY_TTS_MODEL.getD "openai/tts-1-hd",
    voice⟩

/-- A non-empty string has non-zero length. -/
theorem length_ne_zero_of_ne_empty {k : String} (h : k ≠ "") : k.length ≠ 0 := by
  intro h0
  apply h
  cases k with
  | mk data =>
    have : data.length = 0 := h0
    have hdata : data = [] := List.eq_nil_of_length_eq_zero this
    simp [hdata]

/-- C9: configuration resolution fails whenever the API key is absent or
empty; with a valid API key and no other field set, every other field of the
resulting configuration equals its documented default literal; and a TTS
voice value outside the fixed closed set fails validation. -/
theorem parseConfig_spec (isUrl : String → Bool) (env : RawEnv) (k v : String) :
    ((env.AI_GATEWAY_API_KEY = none ∨ env.AI_GATEWAY_API_KEY = some "") →
      ∀ c, parseConfig isUrl env ≠ Except.ok c) ∧
    (k ≠ "" →
      parseConfig isUrl ⟨some k, none, none, none, none, none, none, none, none, none⟩ =
        Except.ok ⟨k, "https://ai-gateway.vercel.sh/v1", "anthropic/claude-haiku-4.5",
          "anthropic/claude-opus-4.5", "openai/text-embedding-3-large", "bfl/flux-2-pro",
          "xai/grok-2-vision", "openai/whisper-1", "openai/tts-1-hd", "alloy"⟩) ∧
    (env.AI_GATEWAY_TTS_VOICE = some v → v ∉ allowedTtsVoices →
      ∀ c, parseConfig isUrl env ≠ Except.ok c) := by
  refine ⟨?_, ?_, ?_⟩
  · rintro (hk | hk) c hc <;>
      simp [parseConfig, parseApiKey, hk, Bind.bind, Except.bind] at hc
  · intro hk
    have hlen : k.length = 0 ↔ False := by
      simp [length_ne_zero_of_ne_empty hk]
    simp [parseConfig, parseApiKey, parseBaseUrl, parseTtsVoice, hlen, Bind.bind,
      Except.bind, Option.getD]
  · intro hv hcontains c hc
    unfold parseConfig at hc
    cases hak : parseApiKey env.AI_GATEWAY_API_KEY with
    | error e => rw [hak] at hc; simp [Bind.bind, Except.bind] at hc
    | ok key =>
      rw [hak] at hc
      cases hbu : parseBaseUrl isUrl env.AI_GATEWAY_BASE_URL with
      | error e => rw [hbu] at hc; simp [Bind.bind, Except.bind] at hc
      | ok b =>
        rw [hbu] at hc
        rw [hv] at hc
        simp [parseTtsVoice, if_neg hcontains, Bind.bind, Except.bind] at hc

/-- Witness for parseConfig_spec at concrete inputs: a missing key fails, a
sole valid key yields exactly the documented defaults, and an out-of-set TTS
voice fails. -/
theorem parseConfig_spec_witness :
    ("k" : String) ≠ "" ∧
    parseConfig (fun _ => true)
        ⟨some "k", none, none, none, none, none, none, none, none, none⟩ =
      Except.ok ⟨"k", "https://ai-gateway.vercel.sh/v1", "anthropic/claude-haiku-4.5",
        "anthropic/claude-opus-4.5", "openai/text-embedding-3-large", "bfl/flux-2-pro",
        "xai/grok-2-vision", "openai/whisper-1", "openai/tts-1-hd", "alloy"⟩ ∧
    (∀ c, parseConfig (fun _ => true)
        ⟨none, none, none, none, none, none, none, none, none, none⟩ ≠ Except.ok c) ∧
    (∀ c, parseConfig (fun _ => true)
        ⟨some "k", none, none, none, none, none, none, none, none, some "robot"⟩ ≠
      Except.ok c) := by
  refine ⟨by decide, ?_, ?_, ?_⟩
  · exact (parseConfig_spec (fun _ => true)
      ⟨some "k", none, none, none, none, none, none, none, none, none⟩ "k" "robot").2.1
      (by decide)
  · exact fun c => (parseConfig_spec (fun _ => true)
      ⟨none, none, none, none, none, none, none, none, none, none⟩ "k" "robot").1
      (Or.inl rfl) c
  · exact fun c => (parseConfig_spec (fun _ => true)
      ⟨some "k", none, none, none, none, none, none, none, none, some "robot"⟩ "k"
      "robot").2.2 rfl (by decide) c

/- ===================================================================
   Gateway client cache (src/src/gateway.ts lines 12-74).  The module holds
   two mutable variables, gatewayInstance and currentConfig; createGatewayClient
   returns the cached handle when the cached config matches the incoming one on
   API key and base URL, otherwise constructs a fresh handle (modelled with a
   fresh id drawn from a counter, so that handle identity is observable) and
   replaces the cache.  clearGatewayCache resets both variables to null.
   =================================================================== -/

/-- A gateway client handle as built by createOpenAICompatible: the id field
models JavaScript object identity (each construction yields a fresh object). -/
structure GatewayClient where
  id : Nat
  name : String
  baseURL : String
  authHeader : String
deriving DecidableEq

/-- The module-level mutable state of gateway.ts: the cached instance, the
config it was built from, and the fresh-identity counter. -/
structure GatewayCacheState where
  gatewayInstance : Option GatewayClient
  currentConfig : Option AIGatewayConfig
  nextId : Nat

/-- The handle constructed by createOpenAICompatible for a config, carrying
the bearer token and base URL (gateway.ts lines 34-40). -/
def mkGatewayClient (cfg : AIGatewayConfig) (fresh : Nat) : GatewayClient :=
  ⟨fresh, "vercel-ai-gateway", cfg.AI_GATEWAY_BASE_URL,
    "Bearer " ++ cfg.AI_GATEWAY_API_KEY⟩

/-- Shallow embedding of createGatewayClient (gateway.ts lines 22-44): return
the cached instance when both cached variables are non-null and the cached
config agrees with the incoming config on API key and base URL; otherwise
construct a new instance and replace the cache. -/
def createGatewayClient (cfg : AIGatewayConfig) (st : GatewayCacheState) :
    GatewayClient × GatewayCacheState :=
  match st.gatewayInstance, st.currentConfig with
  | some g, some c =>
      if c.AI_GATEWAY_API_KEY = cfg.AI_GATEWAY_API_KEY ∧
          c.AI_GATEWAY_BASE_URL = cfg.AI_GATEWAY_BASE_URL then
        (g, st)
      else
        (mkGatewayClient cfg st.nextId,
          ⟨some (mkGatewayClient cfg st.nextId), some cfg, st.nextId + 1⟩)
  | _, _ =>
      (mkGatewayClient cfg st.nextId,
        ⟨some (mkGatewayClient cfg st.nextId), some cfg, st.nextId + 1⟩)

/-- Shallow embedding of clearGatewayCache (gateway.ts lines 71-74): both
cache variables are reset to null. -/
def clearGatewayCache (st : GatewayCacheState) : GatewayCacheState :=
  ⟨none, none, st.nextId⟩

/-- Well-formedness of the cache state: any cached instance was built from an
earlier value of the identity counter. -/
def CacheWF (st : GatewayCacheState) : Prop :=
  ∀ g, st.gatewayInstance = some g → g.id < st.nextId

/-- A cache hit: when the cached variables are non-null and the cached config
agrees with the incoming config on API key and base URL, createGatewayClient
returns the cached handle unchanged. -/
theorem createGatewayClient_hit (cfg : AIGatewayConfig) (st : GatewayCacheState)
    (g : GatewayClient) (c : AIGatewayConfig)
    (hg : st.gatewayInstance = some g) (hc : st.currentConfig = some c)
    (hm : c.AI_GATEWAY_API_KEY = cfg.AI_GATEWAY_API_KEY ∧
      c.AI_GATEWAY_BASE_URL = cfg.AI_GATEWAY_BASE_URL) :
    createGatewayClient cfg st = (g, st) := by
  unfold createGatewayClient
  rw [hg, hc]
  simp [hm.1, hm.2]

/-- A cache miss: when no cached config matches, createGatewayClient builds a
new handle from the counter and replaces the cache. -/
theorem createGatewayClient_miss (cfg : AIGatewayConfig) (st : GatewayCacheState)
    (h : ∀ g c, st.gatewayInstance = some g → st.currentConfig = some c →
      ¬(c.AI_GATEWAY_API_KEY = cfg.AI_GATEWAY_API_KEY ∧
        c.AI_GATEWAY_BASE_URL = cfg.AI_GATEWAY_BASE_URL)) :
    createGatewayClient cfg st =
      (mkGatewayClient cfg st.nextId,
        ⟨some (mkGatewayClient cfg st.nextId), some cfg, st.nextId + 1⟩) := by
  unfold createGatewayClient
  cases hg : st.gatewayInstance with
  | none => rfl
  | some g0 =>
      cases hc : st.currentConfig with
      | none => rfl
      | some c0 =>
          have hm := h g0 c0 hg hc
          simp [hm]

/-- After any createGatewayClient call the state is still well-formed, the
returned client is the cached one with an id below the counter, and the cached
config agrees with the requested config on API key and base URL. -/
theorem createGatewayClient_post (cfg : AIGatewayConfig) (st : GatewayCacheState)
    (h : CacheWF st) :
    CacheWF (createGatewayClient cfg st).2 ∧
    (createGatewayClient cfg st).2.gatewayInstance = some (createGatewayClient cfg st).1 ∧
    (createGatewayClient cfg st).1.id < (createGatewayClient cfg st).2.nextId ∧
    ∃ c, (createGatewayClient cfg st).2.currentConfig = some c ∧
      c.AI_GATEWAY_API_KEY = cfg.AI_GATEWAY_API_KEY ∧
      c.AI_GATEWAY_BASE_URL = cfg.AI_GATEWAY_BASE_URL := by
  by_cases hcase : ∃ g c, st.gatewayInstance = some g ∧ st.currentConfig = some c ∧
      c.AI_GATEWAY_API_KEY = cfg.AI_GATEWAY_API_KEY ∧
      c.AI_GATEWAY_BASE_URL = cfg.AI_GATEWAY_BASE_URL
  · obtain ⟨g, c, hg, hc, hm⟩ := hcase
    rw [createGatewayClient_hit cfg st g c hg hc hm]
    exact ⟨h, hg, h g hg, c, hc, hm⟩
  · have hmiss : ∀ g c, st.gatewayInstance = some g → st.currentConfig = some c →
        ¬(c.AI_GATEWAY_API_KEY = cfg.AI_GATEWAY_API_KEY ∧
          c.AI_GATEWAY_BASE_URL = cfg.AI_GATEWAY_BASE_URL) := by
      intro g c hg hc hm
      exact hcase ⟨g, c, hg, hc, hm⟩
    rw [createGatewayClient_miss cfg st hmiss]
    refine ⟨?_, rfl, Nat.lt_succ_self st.nextId, cfg, rfl, rfl, rfl⟩
    intro g hgi
    have h1 : mkGatewayClient cfg st.nextId = g := by simpa using hgi
    rw [← h1]
    exact Nat.lt_succ_self st.nextId

/-- C2: on a well-formed cache state, two consecutive createGatewayClient
calls with configs agreeing on API key and base URL return the same handle
instance; two calls differing in either field return different instances;
and after clearGatewayCache the next call always constructs a fresh instance
(the construction branch runs, and the result differs from any previously
cached handle). -/
theorem gateway_client_cache_spec (cfg1 cfg2 : AIGatewayConfig)
    (st : GatewayCacheState) (hwf : CacheWF st) :
    ((cfg1.AI_GATEWAY_API_KEY = cfg2.AI_GATEWAY_API_KEY ∧
        cfg1.AI_GATEWAY_BASE_URL = cfg2.AI_GATEWAY_BASE_URL) →
      (createGatewayClient cfg2 (createGatewayClient cfg1 st).2).1 =
        (createGatewayClient cfg1 st).1) ∧
    ((cfg1.AI_GATEWAY_API_KEY ≠ cfg2.AI_GATEWAY_API_KEY ∨
        cfg1.AI_GATEWAY_BASE_URL ≠ cfg2.AI_GATEWAY_BASE_URL) →
      (createGatewayClient cfg2 (createGatewayClient cfg1 st).2).1 ≠
        (createGatewayClient cfg1 st).1) ∧
    (createGatewayClient cfg2 (clearGatewayCache st) =
      (mkGatewayClient cfg2 st.nextId,
        ⟨some (mkGatewayClient cfg2 st.nextId), some cfg2, st.nextId + 1⟩)) ∧
    (∀ g, st.gatewayInstance = some g →
      (createGatewayClient cfg2 (clearGatewayCache st)).1 ≠ g) := by
  obtain ⟨hwf1, hinst, hid, c, hcc, hck, hcu⟩ := createGatewayClient_post cfg1 st hwf
  have hclear : createGatewayClient cfg2 (clearGatewayCache st) =
      (mkGatewayClient cfg2 st.nextId,
        ⟨some (mkGatewayClient cfg2 st.nextId), some cfg2, st.nextId + 1⟩) := by
    apply createGatewayClient_miss
    intro g c hg hc hm
    simp [clearGatewayCache] at hg
  refine ⟨?_, ?_, hclear, ?_⟩
  · rintro ⟨hkey, hurl⟩
    rw [createGatewayClient_hit cfg2 (createGatewayClient cfg1 st).2
      (createGatewayClient cfg1 st).1 c hinst hcc ⟨hck.trans hkey, hcu.trans hurl⟩]
  · intro hdiff
    have hm2 : ¬(c.AI_GATEWAY_API_KEY = cfg2.AI_GATEWAY_API_KEY ∧
        c.AI_GATEWAY_BASE_URL = cfg2.AI_GATEWAY_BASE_URL) := by
      rintro ⟨h1, h2⟩
      rcases hdiff with hd | hd
      · exact hd (hck.symm.trans h1)
      · exact hd (hcu.symm.trans h2)
    have hmiss2 : ∀ g' c',
        (createGatewayClient cfg1 st).2.gatewayInstance = some g' →
        (createGatewayClient cfg1 st).2.currentConfig = some c' →
        ¬(c'.AI_GATEWAY_API_KEY = cfg2.AI_GATEWAY_API_KEY ∧
          c'.AI_GATEWAY_BASE_URL = cfg2.AI_GATEWAY_BASE_URL) := by
      intro g' c' hg' hc' hm'
      rw [hcc] at hc'
      have : c = c' := by injection hc'
      exact hm2 (this ▸ hm')
    rw [createGatewayClient_miss cfg2 (createGatewayClient cfg1 st).2 hmiss2]
    intro heq
    have hidq : (mkGatewayClient cfg2 (createGatewayClient cfg1 st).2.nextId).id =
        (createGatewayClient cfg1 st).1.id := congrArg GatewayClient.id heq
    simp [mkGatewayClient] at hidq
    omega
  · intro g hg heq
    have hlt : g.id < st.nextId := hwf g hg
    have hidq := congrArg GatewayClient.id heq
    rw [hclear] at hidq
    simp [mkGatewayClient] at hidq
    omega

/-- A sample validated configuration used by concrete witnesses. -/
def sampleConfig : AIGatewayConfig :=
  ⟨"key-a", "https://ai-gateway.vercel.sh/v1", "anthropic/claude-haiku-4.5",
    "anthropic/claude-opus-4.5", "openai/text-embedding-3-large", "bfl/flux-2-pro",
    "xai/grok-2-vision", "openai/whisper-1", "openai/tts-1-hd", "alloy"⟩

/-- A second sample configuration differing from sampleConfig in the API key. -/
def sampleConfigB : AIGatewayConfig :=
  ⟨"key-b", "https://ai-gateway.vercel.sh/v1", "anthropic/claude-haiku-4.5",
    "anthropic/claude-opus-4.5", "openai/text-embedding-3-large", "bfl/flux-2-pro",
    "xai/grok-2-vision", "openai/whisper-1", "openai/tts-1-hd", "alloy"⟩

/-- The empty initial cache state of the module. -/
def emptyCacheState : GatewayCacheState := ⟨none, none, 0⟩

/-- Witness for gateway_client_cache_spec on the empty initial state with two
concrete configurations: the repeat call is a cache hit, the changed-key call
returns a different handle, and the post-clear call constructs fresh. -/
theorem gateway_client_cache_spec_witness :
    CacheWF emptyCacheState ∧
    (createGatewayClient sampleConfig
        (createGatewayClient sampleConfig emptyCacheState).2).1 =
      (createGatewayClient sampleConfig emptyCacheState).1 ∧
    (createGatewayClient sampleConfigB
        (createGatewayClient sampleConfig emptyCacheState).2).1 ≠
      (createGatewayClient sampleConfig emptyCacheState).1 ∧
    createGatewayClient sampleConfigB (clearGatewayCache emptyCacheState) =
      (mkGatewayClient sampleConfigB 0,
        ⟨some (mkGatewayClient sampleConfigB 0), some sampleConfigB, 1⟩) := by
  have hwf : CacheWF emptyCacheState := fun g h => Option.noConfusion h
  refine ⟨hwf, ?_, ?_, ?_⟩
  · exact (gateway_client_cache_spec sampleConfig sampleConfig emptyCacheState hwf).1
      ⟨rfl, rfl⟩
  · exact (gateway_client_cache_spec sampleConfig sampleConfigB emptyCacheState hwf).2.1
      (Or.inl (by decide))
  · exact (gateway_client_cache_spec sampleConfig sampleConfigB emptyCacheState hwf).2.2.1

/- ===================================================================
   Text generation adapter, streaming mode with a per-chunk callback
   (src/src/handlers/text-generation.ts lines 43-67).  The upstream streamText
   call is the boundary: it produces a finite ordered list of text fragments,
   and its deferred text value resolves to the concatenation of the fragments
   once the sequence is exhausted.  The wrapper generator awaits the callback
   on each fragment before yielding it; a callback failure propagates to the
   consumer and aborts the sequence.
   =================================================================== -/

/-- The upstream streaming result at the boundary: a finite ordered fragment
list; its deferred full text resolves to the in-order concatenation. -/
structure UpstreamStreamResult where
  fragments : List String

/-- What the consumer observes when draining the wrapped textStream: either
the complete yielded fragment list, or the fragments yielded before the chunk
callback failed together with the propagated failure. -/
inductive StreamOutcome (ε : Type) where
  | ok (yielded : List String)
  | aborted (yielded : List String) (e : ε)
deriving DecidableEq

/-- Shallow embedding of the wrapper generator (text-generation.ts lines
46-51): for each upstream fragment, first await the callback, then yield the
fragment; a callback failure is rethrown to the consumer before the fragment
is yielded.  Returns the ordered list of fragments delivered to the callback
together with the consumer-visible outcome. -/
def pipeChunks {ε : Type} (cb : String → Except ε Unit) :
    List String → List String × StreamOutcome ε
  | [] => ([], .ok [])
  | c :: rest =>
      match cb c with
      | .error e => ([c], .aborted [] e)
      | .ok _ =>
          match pipeChunks cb rest with
          | (delivered, .ok ys) => (c :: delivered, .ok (c :: ys))
          | (delivered, .aborted ys e) => (c :: delivered, .aborted (c :: ys) e)

/-- The TextStreamResult returned by createTextHandler in streaming mode with
a callback: the callback delivery log, the consumer outcome, and the deferred
full-text value (passed through from the upstream result). -/
structure TextStreamResult (ε : Type) where
  callbackLog : List String
  consumed : StreamOutcome ε
  text : String

/-- Shallow embedding of the streaming branch of createTextHandler (lines
43-67): wrap the upstream textStream with the callback and pass the deferred
text through; upstream text resolves to the concatenation of the fragments. -/
def streamWithChunkCallback {ε : Type} (cb : String → Except ε Unit)
    (upstream : UpstreamStreamResult) : TextStreamResult ε :=
  let p := pipeChunks cb upstream.fragments
  ⟨p.1, p.2, String.join upstream.fragments⟩

/-- When the callback succeeds on every fragment, the wrapper delivers the
whole fragment list to the callback and yields it unchanged. -/
theorem pipeChunks_all_ok {ε : Type} (cb : String → Except ε Unit) :
    ∀ l : List String, (∀ c ∈ l, cb c = .ok ()) → pipeChunks cb l = (l, .ok l) := by
  intro l
  induction l with
  | nil => intro _; rfl
  | cons c rest ih =>
      intro h
      have hc : cb c = .ok () := h c (List.mem_cons_self c rest)
      have hrest := ih (fun d hd => h d (List.mem_cons_of_mem c hd))
      simp [pipeChunks, hc, hrest]

/-- When the callback fails on a fragment, the wrapper delivers exactly the
preceding fragments plus the failing one to the callback, yields only the
preceding fragments, and propagates the failure. -/
theorem pipeChunks_abort {ε : Type} (cb : String → Except ε Unit) (e : ε) :
    ∀ (pre : List String) (c : String) (post : List String),
      (∀ d ∈ pre, cb d = .ok ()) → cb c = .error e →
      pipeChunks cb (pre ++ c :: post) = (pre ++ [c], .aborted pre e) := by
  intro pre
  induction pre with
  | nil =>
      intro c post _ hc
      simp [pipeChunks, hc]
  | cons d rest ih =>
      intro c post hpre hc
      have hd : cb d = .ok () := hpre d (List.mem_cons_self d rest)
      have hrest := ih c post (fun x hx => hpre x (List.mem_cons_of_mem d hx)) hc
      simp [pipeChunks, hd, hrest]

/-- C1: in streaming mode with a per-chunk callback, when the callback
succeeds on every fragment the callback and the consumer observe the
identical ordered fragment sequence (the complete upstream sequence, each
fragment awaited by the callback before being yielded) and the deferred
full-text value equals the in-order concatenation of all fragments; when the
callback fails on a fragment, the failure propagates to the consumer and
aborts the sequence after the preceding fragments. -/
theorem text_stream_callback_spec {ε : Type} (cb : String → Except ε Unit)
    (upstream : UpstreamStreamResult) :
    ((∀ c ∈ upstream.fragments, cb c = .ok ()) →
      (streamWithChunkCallback cb upstream).callbackLog = upstream.fragments ∧
      (streamWithChunkCallback cb upstream).consumed = .ok upstream.fragments ∧
      (streamWithChunkCallback cb upstream).text = String.join upstream.fragments) ∧
    (∀ (pre : List String) (c : String) (post : List String) (e : ε),
      upstream.fragments = pre ++ c :: post →
      (∀ d ∈ pre, cb d = .ok ()) → cb c = .error e →
      (streamWithChunkCallback cb upstream).callbackLog = pre ++ [c] ∧
      (streamWithChunkCallback cb upstream).consumed = .aborted pre e) := by
  constructor
  · intro h
    have hp := pipeChunks_all_ok cb upstream.fragments h
    simp [streamWithChunkCallback, hp]
  · intro pre c post e hfrag hpre hc
    have hp := pipeChunks_abort cb e pre c post hpre hc
    rw [streamWithChunkCallback, hfrag, hp]
    exact ⟨rfl, rfl⟩

/-- A concrete chunk callback for witnesses: fails with code 7 on the
fragment bad, succeeds on everything else. -/
def witnessCallback : String → Except Nat Unit :=
  fun s => if s = "bad" then .error 7 else .ok ()

/-- Witness for text_stream_callback_spec: on the fragment list
[he, llo] the callback log, the consumer outcome and the deferred text are as
stated; on [he, bad, x] the callback failure aborts the sequence. -/
theorem text_stream_callback_spec_witness :
    (∀ c ∈ ["he", "llo"], witnessCallback c = .ok ()) ∧
    (streamWithChunkCallback witnessCallback ⟨["he", "llo"]⟩).callbackLog =
      ["he", "llo"] ∧
    (streamWithChunkCallback witnessCallback ⟨["he", "llo"]⟩).consumed =
      .ok ["he", "llo"] ∧
    (streamWithChunkCallback witnessCallback ⟨["he", "llo"]⟩).text = "hello" ∧
    (streamWithChunkCallback witnessCallback ⟨["he", "bad", "x"]⟩).callbackLog =
      ["he", "bad"] ∧
    (streamWithChunkCallback witnessCallback ⟨["he", "bad", "x"]⟩).consumed =
      .aborted ["he"] 7 := by
  have hok : ∀ c ∈ ["he", "llo"], witnessCallback c = .ok () := by
    intro c hc
    simp only [List.mem_cons, List.not_mem_nil, or_false] at hc
    rcases hc with rfl | rfl <;> rfl
  have h1 := (text_stream_callback_spec witnessCallback ⟨["he", "llo"]⟩).1 hok
  have h2 := (text_stream_callback_spec witnessCallback ⟨["he", "bad", "x"]⟩).2
    ["he"] "bad" ["x"] 7 rfl
    (by
      intro d hd
      simp only [List.mem_cons, List.not_mem_nil, or_false] at hd
      rcases hd with rfl
      rfl)
    (by rfl)
  refine ⟨hok, h1.1, h1.2.1, ?_, h2.1, h2.2⟩
  rw [h1.2.2]
  rfl

/- ===================================================================
   Tokenizer adapter (src/src/handlers/tokenizer.ts).  js-tiktoken is the
   boundary: encodingForModel resolves a model identifier to an encoding or
   throws (modelled as Option), getEncoding builds a named encoding.  The
   module keeps a Map from model identifier to tokenizer instance;
   getTokenizer consults the cache, tries encodingForModel, and on failure
   falls back to a shared cl100k_base instance, caching it under that key.
   =================================================================== -/

/-- A js-tiktoken encoding instance at the boundary: an encode and a decode
function. -/
structure Tiktoken where
  encode : String → List Nat
  decode : List Nat → String

/-- The js-tiktoken library surface used by the handlers. -/
structure TiktokenLib where
  encodingForModel : String → Option Tiktoken
  getEncoding : String → Tiktoken

/-- The module-level tokenizer cache (a Map from model identifier to
instance), modelled as an association list where set prepends. -/
def TokCache : Type := List (String × Tiktoken)

/-- Map.get: first entry with the given key. -/
def tokLookup : TokCache → String → Option Tiktoken
  | [], _ => none
  | (k, t) :: rest, m => if k = m then some t else tokLookup rest m

/-- Map.set: record the instance under the key (prepending shadows any older
entry, matching overwrite semantics observationally). -/
def tokSet (st : TokCache) (k : String) (t : Tiktoken) : TokCache :=
  (k, t) :: st

/-- Shallow embedding of getTokenizer (tokenizer.ts lines 18-33): return the
cached instance when present; otherwise try encodingForModel and cache the
result under the model identifier; on failure ensure a cl100k_base instance
is cached and return it (the model identifier itself is not cached on the
fallback path). -/
def getTokenizer (lib : TiktokenLib) (st : TokCache) (modelType : String) :
    Tiktoken × TokCache :=
  match tokLookup st modelType with
  | some t => (t, st)
  | none =>
      match lib.encodingForModel modelType with
      | some enc => (enc, tokSet st modelType enc)
      | none =>
          match tokLookup st "cl100k_base" with
          | some t => (t, st)
          | none =>
              let d := lib.getEncoding "cl100k_base"
              (d, tokSet st "cl100k_base" d)

/-- Shallow embedding of the TEXT_TOKENIZER_ENCODE handler (tokenizer.ts
lines 38-47): resolve the tokenizer for the model type and encode the prompt. -/
def tokenizerEncodeHandler (lib : TiktokenLib) (st : TokCache)
    (modelType prompt : String) : List Nat × TokCache :=
  let r := getTokenizer lib st modelType
  (r.1.encode prompt, r.2)

/-- Shallow embedding of the TEXT_TOKENIZER_DECODE handler (tokenizer.ts
lines 52-61): resolve the tokenizer for the model type and decode the tokens. -/
def tokenizerDecodeHandler (lib : TiktokenLib) (st : TokCache)
    (modelType : String) (tokens : List Nat) : String × TokCache :=
  let r := getTokenizer lib st modelType
  (r.1.decode tokens, r.2)

/-- Looking a key up right after setting it yields the new instance. -/
theorem tokLookup_set_self (st : TokCache) (k : String) (t : Tiktoken) :
    tokLookup (tokSet st k t) k = some t := by
  simp [tokSet, tokLookup]

/-- Setting one key leaves lookups of a different key unchanged. -/
theorem tokLookup_set_ne (st : TokCache) (k k' : String) (t : Tiktoken)
    (h : k ≠ k') : tokLookup (tokSet st k t) k' = tokLookup st k' := by
  simp [tokSet, tokLookup, h]

/-- getTokenizer is idempotent: a second resolution of the same model type on
the updated cache returns the same instance and leaves the cache unchanged. -/
theorem getTokenizer_idem (lib : TiktokenLib) (st : TokCache) (m : String) :
    getTokenizer lib (getTokenizer lib st m).2 m =
      ((getTokenizer lib st m).1, (getTokenizer lib st m).2) := by
  cases h1 : tokLookup st m with
  | some t => simp [getTokenizer, h1]
  | none =>
      cases h2 : lib.encodingForModel m with
      | some enc => simp [getTokenizer, h1, h2, tokLookup_set_self]
      | none =>
          cases h3 : tokLookup st "cl100k_base" with
          | some t => simp [getTokenizer, h1, h2, h3]
          | none =>
              by_cases hm : ("cl100k_base" : String) = m
              · subst hm
                simp [getTokenizer, h1, h2, h3, tokLookup_set_self]
              · simp [getTokenizer, h1, h2, h3, tokLookup_set_self,
                  tokLookup_set_ne st "cl100k_base" m
                    (lib.getEncoding "cl100k_base") hm]

/-- C3: for every text encodable under the encoding that the tokenizer cache
resolves for a model identifier (encodable at the js-tiktoken boundary means
the encoding round-trips on that text), running the decode handler on the
token-id sequence produced by the encode handler for the same model
identifier — on the cache state the encode handler left behind — returns the
original text. -/
theorem tokenizer_round_trip (lib : TiktokenLib) (st : TokCache)
    (modelType text : String)
    (hencodable : (getTokenizer lib st modelType).1.decode
      ((getTokenizer lib st modelType).1.encode text) = text) :
    (tokenizerDecodeHandler lib (tokenizerEncodeHandler lib st modelType text).2
      modelType (tokenizerEncodeHandler lib st modelType text).1).1 = text := by
  unfold tokenizerEncodeHandler tokenizerDecodeHandler
  rw [getTokenizer_idem lib st modelType]
  exact hencodable

/-- A concrete js-tiktoken instantiation for witnesses: every model lookup
falls back to a codepoint encoding (each character becomes its codepoint). -/
def witnessTiktokenLib : TiktokenLib :=
  ⟨fun _ => none,
    fun _ => ⟨fun s => s.data.map Char.toNat, fun l => ⟨l.map Char.ofNat⟩⟩⟩

/-- Witness for tokenizer_round_trip: the codepoint encoding round-trips on
the text ab starting from the empty cache, so the handler composition
returns ab. -/
theorem tokenizer_round_trip_witness :
    (getTokenizer witnessTiktokenLib ([] : TokCache) "gpt-4").1.decode
      ((getTokenizer witnessTiktokenLib ([] : TokCache) "gpt-4").1.encode "ab") =
      "ab" ∧
    (tokenizerDecodeHandler witnessTiktokenLib
      (tokenizerEncodeHandler witnessTiktokenLib ([] : TokCache) "gpt-4" "ab").2
      "gpt-4"
      (tokenizerEncodeHandler witnessTiktokenLib ([] : TokCache) "gpt-4" "ab").1).1 =
      "ab" := by
  have h : (getTokenizer witnessTiktokenLib ([] : TokCache) "gpt-4").1.decode
      ((getTokenizer witnessTiktokenLib ([] : TokCache) "gpt-4").1.encode "ab") =
      "ab" := by decide
  exact ⟨h, tokenizer_round_trip witnessTiktokenLib [] "gpt-4" "ab" h⟩

/- ===================================================================
   Embedding adapter (src/src/handlers/text-embedding.ts).  The file carries
   two near-duplicate implementations of createTextEmbeddingHandler that agree
   on input resolution (null/undefined params throw; a bare string is the
   text; otherwise the record's text field, possibly undefined, is the text)
   and differ on the empty/whitespace-only branch: the first returns a
   3072-dimension zero vector, the second throws.  The upstream embed call is
   the boundary parameter embedUpstream.
   =================================================================== -/

/-- JavaScript String.prototype.trim at the boundary: strip leading and
trailing whitespace characters. -/
def jsTrim (s : String) : String :=
  ⟨((s.data.dropWhile Char.isWhitespace).reverse.dropWhile Char.isWhitespace).reverse⟩

/-- The params value passed to the embedding handler: null/undefined, a bare
string, or a record whose text field may be absent (undefined). -/
inductive EmbedParams where
  | null
  | str (s : String)
  | record (text : Option String)

/-- Shallow embedding of the zero-vector variant of createTextEmbeddingHandler
(text-embedding.ts concatenation lines 16-48, empty branch at lines 31-35):
null params throw; blank or unresolvable text yields a 3072-dimension zero
vector; non-blank text is embedded upstream and returned verbatim. -/
def embedHandlerZeroVariant (embedUpstream : String → List Int) :
    EmbedParams → Except String (List Int)
  | .null => .error "Text is required for embedding"
  | .str s =>
      if (jsTrim s).length = 0 then .ok (List.replicate 3072 0)
      else .ok (embedUpstream s)
  | .record none => .ok (List.replicate 3072 0)
  | .record (some s) =>
      if (jsTrim s).length = 0 then .ok (List.replicate 3072 0)
      else .ok (embedUpstream s)

/-- Shallow embedding of the error variant of createTextEmbeddingHandler
(text-embedding.ts concatenation lines 64-92, empty branch at lines 79-81):
null params throw; blank or unresolvable text throws; non-blank text is
embedded upstream and returned verbatim. -/
def embedHandlerErrorVariant (embedUpstream : String → List Int) :
    EmbedParams → Except String (List Int)
  | .null => .error "Text is required for embedding"
  | .str s =>
      if (jsTrim s).length = 0 then .error "Text cannot be empty for embedding"
      else .ok (embedUpstream s)
  | .record none => .error "Text cannot be empty for embedding"
  | .record (some s) =>
      if (jsTrim s).length = 0 then .error "Text cannot be empty for embedding"
      else .ok (embedUpstream s)

/-- C4 counterexample: the two embedding adapter implementations present in
the source disagree on the same empty input — the first returns the zero
vector while the second raises an input error — so the source does not
exhibit a single documented empty-input behavior across call sites. -/
theorem embedding_empty_policy_counterexample :
    embedHandlerZeroVariant (fun _ => []) (.str "") =
      .ok (List.replicate 3072 0) ∧
    embedHandlerErrorVariant (fun _ => []) (.str "") =
      .error "Text cannot be empty for embedding" ∧
    (Except.ok (List.replicate 3072 0) : Except String (List Int)) ≠
      .error "Text cannot be empty for embedding" := by
  refine ⟨rfl, rfl, ?_⟩
  intro h
  exact Except.noConfusion h

/-- C4 amended: each embedding adapter variant individually exhibits exactly
one documented behavior on every empty or whitespace-only input — the
zero-vector variant always returns the 3072-dimension zero vector and the
error variant always raises an input error — deterministically and
independently of the upstream embedding; but the two variants differ from
each other. -/
theorem embedding_empty_policy_per_variant (embedUpstream : String → List Int)
    (s : String) (h : jsTrim s = "") :
    embedHandlerZeroVariant embedUpstream (.str s) = .ok (List.replicate 3072 0) ∧
    embedHandlerZeroVariant embedUpstream (.record (some s)) =
      .ok (List.replicate 3072 0) ∧
    embedHandlerZeroVariant embedUpstream (.record none) =
      .ok (List.replicate 3072 0) ∧
    embedHandlerErrorVariant embedUpstream (.str s) =
      .error "Text cannot be empty for embedding" ∧
    embedHandlerErrorVariant embedUpstream (.record (some s)) =
      .error "Text cannot be empty for embedding" ∧
    embedHandlerErrorVariant embedUpstream (.record none) =
      .error "Text cannot be empty for embedding" := by
  have hc : (jsTrim s).length = 0 := by rw [h]; rfl
  refine ⟨?_, ?_, rfl, ?_, ?_, rfl⟩
  all_goals simp only [embedHandlerZeroVariant, embedHandlerErrorVariant]
  all_goals rw [if_pos hc]

/-- Witness for embedding_empty_policy_per_variant at the whitespace-only
input consisting of a single space. -/
theorem embedding_empty_policy_per_variant_witness :
    jsTrim " " = "" ∧
    embedHandlerZeroVariant (fun _ => []) (.str " ") =
      .ok (List.replicate 3072 0) ∧
    embedHandlerErrorVariant (fun _ => []) (.str " ") =
      .error "Text cannot be empty for embedding" := by
  have h : jsTrim " " = "" := by decide
  have hmain := embedding_empty_policy_per_variant (fun _ => []) " " h
  exact ⟨h, hmain.1, hmain.2.2.2.1⟩

/-- C5 counterexample: on a record lacking a text field (no text resolvable),
the zero-vector variant — the implementation the claim cites — returns a
value (the zero vector) instead of failing with an input error. -/
theorem embedding_missing_text_counterexample :
    embedHandlerZeroVariant (fun _ => []) (.record none) =
      .ok (List.replicate 3072 0) := by
  rfl

/-- C5 amended: null or undefined params always fail with an input error in
both variants; but a record lacking a resolvable text field is treated like
empty text rather than rejected — the zero-vector variant returns the
3072-dimension zero vector (a value), and only the error variant fails. -/
theorem embedding_input_resolution_spec (embedUpstream : String → List Int) :
    embedHandlerZeroVariant embedUpstream .null =
      .error "Text is required for embedding" ∧
    embedHandlerErrorVariant embedUpstream .null =
      .error "Text is required for embedding" ∧
    embedHandlerZeroVariant embedUpstream (.record none) =
      .ok (List.replicate 3072 0) ∧
    embedHandlerErrorVariant embedUpstream (.record none) =
      .error "Text cannot be empty for embedding" := by
  exact ⟨rfl, rfl, rfl, rfl⟩

/- ===================================================================
   FAL image adapter response normalization (src/src/handlers/fal.ts lines
   60-76).  The upstream result.data is a JavaScript value; the adapter
   computes  data?.images || [data]  and maps each element to a record whose
   url field is the element's url property.  A JavaScript value here is
   either an object (with optional url and images properties) or an array;
   property access on an array yields undefined.
   =================================================================== -/

/-- A FAL response value: an object carrying optional url and images
properties, or an array of values. -/
inductive FalValue where
  | obj (url : Option String) (images : Option (List FalValue))
  | arr (elems : List FalValue)

/-- JavaScript property access data.images: undefined on arrays and on
objects without the property. -/
def falGetImages : FalValue → Option (List FalValue)
  | .obj _ imgs => imgs
  | .arr _ => none

/-- JavaScript property access img.url: undefined on arrays and on objects
without the property. -/
def falGetUrl : FalValue → Option String
  | .obj u _ => u
  | .arr _ => none

/-- Shallow embedding of the normalization in createFalImageHandler (fal.ts
lines 71-75): take data.images when defined, else the one-element list
[data]; map each element to its url property (none models the undefined url
of the produced record). -/
def falNormalizeImages (data : FalValue) : List (Option String) :=
  (match falGetImages data with
   | some imgs => imgs
   | none => [data]).map falGetUrl

/-- C7 counterexample: a top-level list response with two url-bearing items
is not normalized into a list of url records — the adapter wraps the whole
array as a single element whose url field is undefined, so the output is one
record with no url. -/
theorem fal_normalize_counterexample :
    falNormalizeImages
        (.arr [.obj (some "https://img.example/a.png") none,
               .obj (some "https://img.example/b.png") none]) = [none] := by
  rfl

/-- C7 amended: a single-object response and a nested images-list response
are normalized into a uniform list of url records (every record carries a
url whenever every nested item does), but a top-level list response is
wrapped whole as one element whose url field is undefined. -/
theorem fal_normalize_spec (u : String) (u0 : Option String)
    (imgs : List FalValue) (l : List FalValue) :
    falNormalizeImages (.obj (some u) none) = [some u] ∧
    falNormalizeImages (.obj u0 (some imgs)) = imgs.map falGetUrl ∧
    ((∀ v ∈ imgs, (falGetUrl v).isSome) →
      ∀ o ∈ falNormalizeImages (.obj u0 (some imgs)), o.isSome) ∧
    falNormalizeImages (.arr l) = [none] := by
  refine ⟨rfl, rfl, ?_, rfl⟩
  intro hall o ho
  simp only [falNormalizeImages, falGetImages, List.mem_map] at ho
  obtain ⟨v, hv, rfl⟩ := ho
  exact hall v hv

/-- Witness for fal_normalize_spec at a concrete nested images-list response
whose two items both carry urls. -/
theorem fal_normalize_spec_witness :
    falNormalizeImages
        (.obj none (some [.obj (some "https://img.example/a.png") none,
                          .obj (some "https://img.example/b.png") none])) =
      [some "https://img.example/a.png", some "https://img.example/b.png"] ∧
    (∀ o ∈ falNormalizeImages
        (.obj none (some [.obj (some "https://img.example/a.png") none,
                          .obj (some "https://img.example/b.png") none])),
      o.isSome) := by
  constructor
  · exact (fal_normalize_spec "https://img.example/a.png" none
      [.obj (some "https://img.example/a.png") none,
       .obj (some "https://img.example/b.png") none] []).2.1
  · exact (fal_normalize_spec "https://img.example/a.png" none
      [.obj (some "https://img.example/a.png") none,
       .obj (some "https://img.example/b.png") none] []).2.2.1
      (by
        intro v hv
        simp only [List.mem_cons, List.not_mem_nil, or_false] at hv
        rcases hv with rfl | rfl <;> rfl)

/- ===================================================================
   Capability dispatch table (src/unnamed/part_006, createModelHandlers).
   The table binds one handler per ModelType; the IMAGE entry selects the FAL
   adapter exactly when  config.FAL_API_KEY && config.FAL_PREFER_FOR_IMAGES
   is truthy, else the primary gateway adapter; the VIDEO entry is appended
   only when config.FAL_API_KEY is truthy.
   =================================================================== -/

/-- The closed enumeration of capability identifiers used by
createModelHandlers (values of the host runtime's ModelType enum). -/
inductive ModelType where
  | TEXT_SMALL
  | TEXT_LARGE
  | TEXT_COMPLETION
  | TEXT_REASONING_SMALL
  | TEXT_REASONING_LARGE
  | TEXT_EMBEDDING
  | OBJECT_SMALL
  | OBJECT_LARGE
  | IMAGE
  | IMAGE_DESCRIPTION
  | TRANSCRIPTION
  | TEXT_TO_SPEECH
  | TEXT_TOKENIZER_ENCODE
  | TEXT_TOKENIZER_DECODE
  | VIDEO
deriving DecidableEq

/-- A tag naming which adapter factory produced a table entry. -/
inductive HandlerTag where
  | textSmall
  | textLarge
  | textCompletion
  | textReasoningSmall
  | textReasoningLarge
  | textEmbedding
  | objectSmall
  | objectLarge
  | gatewayImage
  | falImage
  | imageDescription
  | transcription
  | textToSpeech
  | tokenizerEncode
  | tokenizerDecode
  | falVideo
deriving DecidableEq

/-- A registered model handler: the adapter, the provider name, and the
registration priority. -/
structure ModelHandler where
  handler : HandlerTag
  provider : String
  priority : Nat
deriving DecidableEq

/-- The plugin name constant of part_006. -/
def PLUGIN_NAME : String := "@ghostspeak/plugin-gateway-ghost"

/-- The registration priority constant of part_006. -/
def PRIORITY : Nat := 10

/-- Modelled from the spec: the alternative-provider (FAL) configuration
fields used by createModelHandlers.  The config module carrying their schema
is not among the provided sources (the included near-duplicate schema lacks
them); section 6 of the spec lists the configuration surface as an optional
alternative-provider API key, image/video model ids, and a boolean
image-preference flag.  The credential is an optional string so that the
code's JavaScript truthiness test on it can be modelled faithfully. -/
structure PluginConfig extends AIGatewayConfig where
  FAL_API_KEY : Option String
  FAL_IMAGE_MODEL : String
  FAL_VIDEO_MODEL : String
  FAL_PREFER_FOR_IMAGES : Bool

/-- JavaScript truthiness of config.FAL_API_KEY: defined and non-empty. -/
def falKeyTruthy (cfg : PluginConfig) : Bool :=
  match cfg.FAL_API_KEY with
  | none => false
  | some s => s != ""

/-- Shallow embedding of createModelHandlers (part_006 lines 45-145): the
fixed table of fourteen entries, with the IMAGE handler chosen by
FAL_API_KEY && FAL_PREFER_FOR_IMAGES, plus a VIDEO entry appended exactly
when FAL_API_KEY is truthy. -/
def createModelHandlers (cfg : PluginConfig) : List (ModelType × ModelHandler) :=
  [(ModelType.TEXT_SMALL, ⟨.textSmall, PLUGIN_NAME, PRIORITY⟩),
   (ModelType.TEXT_LARGE, ⟨.textLarge, PLUGIN_NAME, PRIORITY⟩),
   (ModelType.TEXT_COMPLETION, ⟨.textCompletion, PLUGIN_NAME, PRIORITY⟩),
   (ModelType.TEXT_REASONING_SMALL, ⟨.textReasoningSmall, PLUGIN_NAME, PRIORITY⟩),
   (ModelType.TEXT_REASONING_LARGE, ⟨.textReasoningLarge, PLUGIN_NAME, PRIORITY⟩),
   (ModelType.TEXT_EMBEDDING, ⟨.textEmbedding, PLUGIN_NAME, PRIORITY⟩),
   (ModelType.OBJECT_SMALL, ⟨.objectSmall, PLUGIN_NAME, PRIORITY⟩),
   (ModelType.OBJECT_LARGE, ⟨.objectLarge, PLUGIN_NAME, PRIORITY⟩),
   (ModelType.IMAGE,
     ⟨if falKeyTruthy cfg && cfg.FAL_PREFER_FOR_IMAGES then .falImage
       else .gatewayImage, PLUGIN_NAME, PRIORITY⟩),
   (ModelType.IMAGE_DESCRIPTION, ⟨.imageDescription, PLUGIN_NAME, PRIORITY⟩),
   (ModelType.TRANSCRIPTION, ⟨.transcription, PLUGIN_NAME, PRIORITY⟩),
   (ModelType.TEXT_TO_SPEECH, ⟨.textToSpeech, PLUGIN_NAME, PRIORITY⟩),
   (ModelType.TEXT_TOKENIZER_ENCODE, ⟨.tokenizerEncode, PLUGIN_NAME, PRIORITY⟩),
   (ModelType.TEXT_TOKENIZER_DECODE, ⟨.tokenizerDecode, PLUGIN_NAME, PRIORITY⟩)]
  ++ (if falKeyTruthy cfg then
        [(ModelType.VIDEO, ⟨.falVideo, PLUGIN_NAME, PRIORITY⟩)]
      else [])

/-- Lookup of a capability identifier in the dispatch table. -/
def findHandler : List (ModelType × ModelHandler) → ModelType → Option ModelHandler
  | [], _ => none
  | (k, h) :: rest, mt => if k = mt then some h else findHandler rest mt

/-- C6: for every validated configuration, the dispatch table binds IMAGE to
the FAL adapter exactly when the FAL credential is truthy and the
image-preference flag is set (otherwise to the primary gateway adapter), and
contains a VIDEO entry exactly when the FAL credential is truthy (otherwise
the VIDEO entry is omitted entirely). -/
theorem dispatch_table_spec (cfg : PluginConfig) :
    (Option.map ModelHandler.handler
        (findHandler (createModelHandlers cfg) ModelType.IMAGE) =
      some (if falKeyTruthy cfg && cfg.FAL_PREFER_FOR_IMAGES then
        HandlerTag.falImage else HandlerTag.gatewayImage)) ∧
    (Option.map ModelHandler.handler
        (findHandler (createModelHandlers cfg) ModelType.IMAGE) =
        some HandlerTag.falImage ↔
      (falKeyTruthy cfg = true ∧ cfg.FAL_PREFER_FOR_IMAGES = true)) ∧
    (Option.map ModelHandler.handler
        (findHandler (createModelHandlers cfg) ModelType.VIDEO) =
        some HandlerTag.falVideo ↔ falKeyTruthy cfg = true) ∧
    (findHandler (createModelHandlers cfg) ModelType.VIDEO = none ↔
      falKeyTruthy cfg = false) := by
  cases h1 : falKeyTruthy cfg <;> cases h2 : cfg.FAL_PREFER_FOR_IMAGES <;>
    simp [createModelHandlers, findHandler, h1, h2]

/- ===================================================================
   Primary gateway image adapter response mapping (src/src/handlers/index.ts
   concatenation lines 76-79, createImageHandler).  Each item of the JSON
   response's data array carries optional url and b64_json fields; the
   adapter maps  img.b64_json ? data-url : (img.url || '').
   =================================================================== -/

/-- One item of the primary image endpoint's response data array. -/
structure GatewayImageItem where
  url : Option String
  b64_json : Option String

/-- JavaScript truthiness of an optional string: defined and non-empty. -/
def jsTruthyStr : Option String → Bool
  | none => false
  | some s => s != ""

/-- Shallow embedding of the per-item mapping in createImageHandler: a truthy
b64_json yields a synthesized png data-URL, otherwise img.url || yields the
url when truthy and the empty string when the url is absent or empty. -/
def normalizeImageItem (img : GatewayImageItem) : String :=
  if jsTruthyStr img.b64_json then
    "data:image/png;base64," ++ img.b64_json.getD ""
  else
    img.url.getD ""

/-- Shallow embedding of the result mapping of createImageHandler: every item
of a successful response's data array is mapped to a url record. -/
def createImageHandlerResult (data : List GatewayImageItem) : List String :=
  data.map normalizeImageItem

/-- C10: in the primary image adapter's mapping of a successful response,
an item carrying inline base64 data gets a synthesized data-URL, an item
with a plain URL and no base64 data gets that URL, an item carrying neither
yields the empty string, and no item is rejected — the output has one record
per input item. -/
theorem image_handler_mapping_spec (data : List GatewayImageItem)
    (u : Option String) (b s : String) :
    (b ≠ "" →
      normalizeImageItem ⟨u, some b⟩ = "data:image/png;base64," ++ b) ∧
    normalizeImageItem ⟨some s, none⟩ = s ∧
    normalizeImageItem ⟨none, none⟩ = "" ∧
    (createImageHandlerResult data).length = data.length := by
  refine ⟨?_, ?_, rfl, by simp [createImageHandlerResult]⟩
  · intro hb
    simp [normalizeImageItem, jsTruthyStr, hb]
  · simp [normalizeImageItem, jsTruthyStr]

/-- Witness for image_handler_mapping_spec at concrete items: a base64 item,
a url item, and an empty item. -/
theorem image_handler_mapping_spec_witness :
    ("QUJD" : String) ≠ "" ∧
    normalizeImageItem ⟨none, some "QUJD"⟩ = "data:image/png;base64,QUJD" ∧
    normalizeImageItem ⟨some "https://img.example/a.png", none⟩ =
      "https://img.example/a.png" ∧
    normalizeImageItem ⟨none, none⟩ = "" ∧
    (createImageHandlerResult
      [⟨none, some "QUJD"⟩, ⟨some "https://img.example/a.png", none⟩,
       ⟨none, none⟩]).length = 3 := by
  have hb : ("QUJD" : String) ≠ "" := by decide
  have h := image_handler_mapping_spec
    [⟨none, some "QUJD"⟩, ⟨some "https://img.example/a.png", none⟩, ⟨none, none⟩]
    none "QUJD" "https://img.example/a.png"
  exact ⟨hb, h.1 hb, h.2.1, h.2.2.1, h.2.2.2⟩

end GatewayGhost
